import Mathlib

/-!
Shallow embedding of the authentication providers of azure-aitoolsconnect:
src/auth/manual_token.rs and src/auth/device_code.rs.

Conventions of the embedding:
- Rust `String` is Lean `String`; `str::len` (UTF-8 byte count) is
  `String.utf8ByteSize`; `str::trim` is `rustTrim`, which drops the
  characters of the Unicode White_Space property from both ends exactly as
  Rust char::is_whitespace does.
- Fallible functions (`Result<T>` in Rust) become `Except AppError T`.
- The async polling loop of `DeviceCodeAuth::poll_for_token` is embedded as a
  structurally recursive function over a finite script of token-endpoint
  responses. Logical time is measured in seconds as the sum of the `sleep`
  calls performed; the loop result also records the logical time of every
  poll attempt (its trace), so that attempt counts and waiting times are
  observable.
-/

/-- The two variants of crate error type AppError raised by the auth modules. -/
inductive AppError where
  | InvalidBearerToken (msg : String)
  | DeviceCodeAuthFailed (msg : String)
  deriving DecidableEq

/-- Credentials produced by an AuthProvider (src/auth): a bearer token. -/
inductive Credentials where
  | BearerToken (token : String)
  deriving DecidableEq

/-- Manual token authentication provider (src/auth/manual_token.rs). -/
structure ManualTokenAuth where
  token : String
  deriving DecidableEq

/-- Rust char::is_whitespace: true exactly on the characters with the Unicode
White_Space property, namely U+0009 to U+000D, U+0020, U+0085, U+00A0,
U+1680, U+2000 to U+200A, U+2028, U+2029, U+202F, U+205F and U+3000. -/
def rustIsWhitespace (c : Char) : Bool :=
  (0x09 ≤ c.toNat && c.toNat ≤ 0x0D) || c.toNat == 0x20 || c.toNat == 0x85 ||
  c.toNat == 0xA0 || c.toNat == 0x1680 || (0x2000 ≤ c.toNat && c.toNat ≤ 0x200A) ||
  c.toNat == 0x2028 || c.toNat == 0x2029 || c.toNat == 0x202F || c.toNat == 0x205F ||
  c.toNat == 0x3000

/-- Rust str::trim over the character list: drop Unicode White_Space
characters from both ends. An executable model is used because Lean
String.trim does not reduce in the kernel, and its whitespace set (space,
tab, carriage return, line feed) is smaller than the Unicode White_Space
property that Rust char::is_whitespace uses. -/
def rustTrim (s : String) : String :=
  String.mk ((s.data.dropWhile rustIsWhitespace).reverse.dropWhile rustIsWhitespace).reverse

/-- ManualTokenAuth::new from src/auth/manual_token.rs lines 12-28. -/
def ManualTokenAuth.new (token : String) : Except AppError ManualTokenAuth :=
  if (rustTrim token).isEmpty then
    .error (.InvalidBearerToken "Token cannot be empty")
  else if token.utf8ByteSize < 20 then
    .error (.InvalidBearerToken "Token appears to be too short")
  else
    .ok { token }

/-- ManualTokenAuth::get_credentials from src/auth/manual_token.rs lines 33-35. -/
def ManualTokenAuth.get_credentials (a : ManualTokenAuth) : Except AppError Credentials :=
  .ok (.BearerToken a.token)

/-- ManualTokenAuth::method_name from src/auth/manual_token.rs lines 37-39. -/
def ManualTokenAuth.method_name (_ : ManualTokenAuth) : String :=
  "Manual Token"

/-- Cloud selection (crate::config::Cloud), two variants. -/
inductive Cloud where
  | Global
  | China
  deriving DecidableEq

/-- Modelled from the spec: Cloud::login_endpoint lives in crate::config,
which is not under src/. Spec section 6 fixes Global to
https://login.microsoftonline.com and China to https://login.chinacloudapi.cn. -/
def Cloud.login_endpoint : Cloud → String
  | .Global => "https://login.microsoftonline.com"
  | .China => "https://login.chinacloudapi.cn"

/-- Azure CLI well-known public client ID, src/auth/device_code.rs line 15. -/
def AZURE_CLI_CLIENT_ID : String := "04b07795-8ddb-461a-bbee-02f9e1bf7b46"

/-- Device Code Flow authentication provider (src/auth/device_code.rs lines 19-24). -/
structure DeviceCodeAuth where
  tenant_id : String
  client_id : String
  scope : String
  cloud : Cloud
  deriving DecidableEq

/-- DeviceCodeAuth::new from src/auth/device_code.rs lines 27-41. -/
def DeviceCodeAuth.new (tenant_id : String) (client_id : Option String) (cloud : Cloud) :
    Except AppError DeviceCodeAuth :=
  let client_id := client_id.getD AZURE_CLI_CLIENT_ID
  let scope :=
    match cloud with
    | .Global => "https://cognitiveservices.azure.com/.default"
    | .China => "https://cognitiveservices.azure.cn/.default"
  .ok { tenant_id, client_id, scope, cloud }

/-- Device auth URL template of DeviceCodeAuth::fetch_token, lines 48-51. -/
def DeviceCodeAuth.device_auth_url_string (a : DeviceCodeAuth) : String :=
  a.cloud.login_endpoint ++ "/" ++ a.tenant_id ++ "/oauth2/v2.0/devicecode"

/-- Token URL template of DeviceCodeAuth::fetch_token, lines 54-57. -/
def DeviceCodeAuth.token_url_string (a : DeviceCodeAuth) : String :=
  a.cloud.login_endpoint ++ "/" ++ a.tenant_id ++ "/oauth2/v2.0/token"

/-- Authorize URL template of DeviceCodeAuth::fetch_token, lines 60-63. -/
def DeviceCodeAuth.auth_url_string (a : DeviceCodeAuth) : String :=
  a.cloud.login_endpoint ++ "/" ++ a.tenant_id ++ "/oauth2/v2.0/authorize"

/-- URL-derivation phase of DeviceCodeAuth::fetch_token (lines 44-64). The URL
parser used by DeviceAuthorizationUrl::new, TokenUrl::new and AuthUrl::new is
url::Url::parse from the external url crate; it is abstracted here as the
parameter urlParse, returning unit on a well-formed URL and a parse-error
description otherwise. The three checks happen in source order and each
map_err wraps the cause into DeviceCodeAuthFailed with its prefix. -/
def DeviceCodeAuth.fetch_token_urls (urlParse : String → Except String Unit)
    (a : DeviceCodeAuth) : Except AppError (String × String × String) :=
  match urlParse a.device_auth_url_string with
  | .error e => .error (.DeviceCodeAuthFailed ("Invalid device auth URL: " ++ e))
  | .ok _ =>
    match urlParse a.token_url_string with
    | .error e => .error (.DeviceCodeAuthFailed ("Invalid token URL: " ++ e))
    | .ok _ =>
      match urlParse a.auth_url_string with
      | .error e => .error (.DeviceCodeAuthFailed ("Invalid auth URL: " ++ e))
      | .ok _ => .ok (a.device_auth_url_string, a.token_url_string, a.auth_url_string)

/-- oauth2 DeviceCodeErrorResponseType as matched in poll_for_token lines
145-171: the four named variants plus a catch-all with its debug rendering. -/
inductive DeviceCodeErrorResponseType where
  | AuthorizationPending
  | SlowDown
  | ExpiredToken
  | AccessDenied
  | Other (detail : String)
  deriving DecidableEq

/-- One response of the token endpoint to a poll attempt, mirroring the match
in poll_for_token lines 131-185: Ok carries the access-token secret of a
successful BasicTokenResponse; ServerResponse mirrors
RequestTokenError::ServerResponse; Request mirrors RequestTokenError::Request
(a transport failure); OtherError covers the remaining RequestTokenError
variants caught by the final arm. -/
inductive TokenPollResponse where
  | Ok (token : String)
  | ServerResponse (err : DeviceCodeErrorResponseType)
  | Request (e : String)
  | OtherError (e : String)
  deriving DecidableEq

/-- Outcome of the polling loop: token returned, error returned, or still
running (used only when the response script is exhausted). -/
inductive PollOutcome where
  | ok (token : String)
  | err (e : AppError)
  | running
  deriving DecidableEq

/-- Result of a polling-loop run: its outcome, the logical times (seconds of
accumulated sleep since loop start) at which each poll attempt was made, and
the logical time at termination. -/
structure LoopResult where
  outcome : PollOutcome
  trace : List Nat
  elapsed : Nat
  deriving DecidableEq

/-- The wall-clock deadline of poll_for_token, line 119: 15 minutes in seconds. -/
def pollTimeout : Nat := 15 * 60

/-- The timeout error message of poll_for_token, lines 124-126. -/
def timeoutMessage : String := "Authentication timeout (15 minutes). Please try again."

/-- The loop of DeviceCodeAuth::poll_for_token, lines 122-186. Each iteration:
if elapsed time exceeds pollTimeout, fail with the timeout error; otherwise
sleep interval seconds and make one poll attempt, consuming the next scripted
response. AuthorizationPending continues; SlowDown sleeps one extra interval
and continues; every other response terminates with the corresponding result. -/
def pollLoop (interval : Nat) (script : List TokenPollResponse) (elapsed : Nat) : LoopResult :=
  if pollTimeout < elapsed then
    ⟨.err (.DeviceCodeAuthFailed timeoutMessage), [], elapsed⟩
  else
    match script with
    | [] => ⟨.running, [], elapsed⟩
    | r :: rest =>
      let t := elapsed + interval
      match r with
      | .Ok token => ⟨.ok token, [t], t⟩
      | .ServerResponse .AuthorizationPending =>
        let res := pollLoop interval rest t
        ⟨res.outcome, t :: res.trace, res.elapsed⟩
      | .ServerResponse .SlowDown =>
        let res := pollLoop interval rest (t + interval)
        ⟨res.outcome, t :: res.trace, res.elapsed⟩
      | .ServerResponse .ExpiredToken =>
        ⟨.err (.DeviceCodeAuthFailed "Device code expired. Please try again."), [t], t⟩
      | .ServerResponse .AccessDenied =>
        ⟨.err (.DeviceCodeAuthFailed "User declined authorization"), [t], t⟩
      | .ServerResponse (.Other detail) =>
        ⟨.err (.DeviceCodeAuthFailed ("Server error: " ++ detail)), [t], t⟩
      | .Request e =>
        ⟨.err (.DeviceCodeAuthFailed ("Network error during token request: " ++ e)), [t], t⟩
      | .OtherError e =>
        ⟨.err (.DeviceCodeAuthFailed ("Token request failed: " ++ e)), [t], t⟩

/-- DeviceCodeAuth::poll_for_token, lines 113-187: run the loop from logical
time zero with the server-dictated interval against a scripted server. -/
def poll_for_token (interval : Nat) (script : List TokenPollResponse) : LoopResult :=
  pollLoop interval script 0

/-- Classification of one poll response by the match arms of lines 140-184:
some outcome when the arm returns from the loop (terminal), none when the arm
continues polling (AuthorizationPending and SlowDown only). -/
def terminalOutcome : TokenPollResponse → Option PollOutcome
  | .Ok token => some (.ok token)
  | .ServerResponse .AuthorizationPending => none
  | .ServerResponse .SlowDown => none
  | .ServerResponse .ExpiredToken =>
    some (.err (.DeviceCodeAuthFailed "Device code expired. Please try again."))
  | .ServerResponse .AccessDenied =>
    some (.err (.DeviceCodeAuthFailed "User declined authorization"))
  | .ServerResponse (.Other detail) =>
    some (.err (.DeviceCodeAuthFailed ("Server error: " ++ detail)))
  | .Request e =>
    some (.err (.DeviceCodeAuthFailed ("Network error during token request: " ++ e)))
  | .OtherError e =>
    some (.err (.DeviceCodeAuthFailed ("Token request failed: " ++ e)))

/-- Extra sleep performed by a response before the loop continues: one extra
interval for SlowDown (line 152), nothing otherwise. -/
def slowDownExtra (interval : Nat) : TokenPollResponse → Nat
  | .ServerResponse .SlowDown => interval
  | _ => 0

/-! Step lemmas for the polling loop. -/

theorem pollLoop_timeout_eq (interval : Nat) (script : List TokenPollResponse) (elapsed : Nat)
    (h : pollTimeout < elapsed) :
    pollLoop interval script elapsed =
      ⟨.err (.DeviceCodeAuthFailed timeoutMessage), [], elapsed⟩ := by
  rw [pollLoop.eq_def, if_pos h]

theorem pollLoop_pending_eq (interval : Nat) (rest : List TokenPollResponse) (elapsed : Nat)
    (h : ¬ pollTimeout < elapsed) :
    pollLoop interval (.ServerResponse .AuthorizationPending :: rest) elapsed =
      ⟨(pollLoop interval rest (elapsed + interval)).outcome,
       (elapsed + interval) :: (pollLoop interval rest (elapsed + interval)).trace,
       (pollLoop interval rest (elapsed + interval)).elapsed⟩ := by
  rw [pollLoop, if_neg h]

theorem pollLoop_slowdown_eq (interval : Nat) (rest : List TokenPollResponse) (elapsed : Nat)
    (h : ¬ pollTimeout < elapsed) :
    pollLoop interval (.ServerResponse .SlowDown :: rest) elapsed =
      ⟨(pollLoop interval rest (elapsed + interval + interval)).outcome,
       (elapsed + interval) :: (pollLoop interval rest (elapsed + interval + interval)).trace,
       (pollLoop interval rest (elapsed + interval + interval)).elapsed⟩ := by
  rw [pollLoop, if_neg h]

theorem pollLoop_terminal_eq (interval : Nat) (r : TokenPollResponse)
    (rest : List TokenPollResponse) (elapsed : Nat) (out : PollOutcome)
    (h : ¬ pollTimeout < elapsed) (hr : terminalOutcome r = some out) :
    pollLoop interval (r :: rest) elapsed = ⟨out, [elapsed + interval], elapsed + interval⟩ := by
  rcases r with token | e | e | e
  · simp [terminalOutcome] at hr
    subst hr
    rw [pollLoop, if_neg h]
  · rcases e with _ | _ | _ | _ | d <;> simp [terminalOutcome] at hr <;>
      rw [pollLoop, if_neg h, ← hr]
  · simp [terminalOutcome] at hr
    rw [pollLoop, if_neg h, ← hr]
  · simp [terminalOutcome] at hr
    rw [pollLoop, if_neg h, ← hr]

theorem pollLoop_trace_head (interval : Nat) (r : TokenPollResponse)
    (rest : List TokenPollResponse) (elapsed : Nat) (h : ¬ pollTimeout < elapsed) :
    (pollLoop interval (r :: rest) elapsed).trace.head? = some (elapsed + interval) := by
  rcases hr : terminalOutcome r with _ | out
  · rcases r with token | e | e | e <;> try simp [terminalOutcome] at hr
    rcases e with _ | _ | _ | _ | d <;> simp [terminalOutcome] at hr
    · rw [pollLoop_pending_eq interval rest elapsed h]
      rfl
    · rw [pollLoop_slowdown_eq interval rest elapsed h]
      rfl
  · rw [pollLoop_terminal_eq interval r rest elapsed out h hr]
    rfl

theorem pollLoop_replicate_pending_skip (interval n : Nat) :
    ∀ (elapsed : Nat) (s : List TokenPollResponse),
      elapsed + n * interval ≤ pollTimeout →
      (pollLoop interval
          (List.replicate n (.ServerResponse .AuthorizationPending) ++ s) elapsed).outcome
        = (pollLoop interval s (elapsed + n * interval)).outcome ∧
      (pollLoop interval
          (List.replicate n (.ServerResponse .AuthorizationPending) ++ s) elapsed).trace.length
        = n + (pollLoop interval s (elapsed + n * interval)).trace.length := by
  induction n with
  | zero => intro elapsed s h; simp
  | succ n ih =>
    intro elapsed s h
    have hle : elapsed ≤ pollTimeout := le_trans (Nat.le_add_right _ _) h
    have he : ¬ pollTimeout < elapsed := Nat.not_lt.mpr hle
    have harr : elapsed + interval + n * interval = elapsed + (n + 1) * interval := by ring
    have hrec := ih (elapsed + interval) s (by rw [harr]; exact h)
    rw [List.replicate_succ, List.cons_append, pollLoop_pending_eq _ _ _ he]
    constructor
    · dsimp only
      rw [hrec.1, harr]
    · dsimp only
      rw [List.length_cons, hrec.2, harr]
      omega

theorem pollLoop_replicate_pending_timeout (interval n : Nat) :
    ∀ elapsed : Nat, pollTimeout < elapsed + n * interval →
      (pollLoop interval
          (List.replicate n (.ServerResponse .AuthorizationPending)) elapsed).outcome
        = .err (.DeviceCodeAuthFailed timeoutMessage) := by
  induction n with
  | zero =>
    intro elapsed h
    rw [pollLoop_timeout_eq _ _ _ (by simpa using h)]
  | succ n ih =>
    intro elapsed h
    by_cases he : pollTimeout < elapsed
    · rw [pollLoop_timeout_eq _ _ _ he]
    · rw [List.replicate_succ, pollLoop_pending_eq _ _ _ he]
      dsimp only
      have harr : elapsed + interval + n * interval = elapsed + (n + 1) * interval := by ring
      exact ih (elapsed + interval) (by rw [harr]; exact h)

/-- C1: In the device-code polling loop, AuthorizationPending and SlowDown are
the only server outcomes after which another poll attempt is performed. Every
other outcome — success, expired token, access denied, any other server error,
a network failure, or any other request failure — terminates the loop at its
first occurrence (success returning the token, the rest an AuthFailed error as
recorded by terminalOutcome), with no further poll attempts: the remaining
script is ignored and the trace records exactly one attempt. -/
theorem pollLoop_only_pending_and_slowdown_continue
    (interval : Nat) (r : TokenPollResponse) (rest : List TokenPollResponse) (elapsed : Nat)
    (h : elapsed ≤ pollTimeout) :
    (∀ out, terminalOutcome r = some out →
      r ≠ .ServerResponse .AuthorizationPending ∧ r ≠ .ServerResponse .SlowDown ∧
      pollLoop interval (r :: rest) elapsed = ⟨out, [elapsed + interval], elapsed + interval⟩ ∧
      pollLoop interval (r :: rest) elapsed = pollLoop interval [r] elapsed) ∧
    (terminalOutcome r = none →
      (r = .ServerResponse .AuthorizationPending ∨ r = .ServerResponse .SlowDown) ∧
      pollLoop interval (r :: rest) elapsed =
        ⟨(pollLoop interval rest (elapsed + interval + slowDownExtra interval r)).outcome,
         (elapsed + interval) ::
           (pollLoop interval rest (elapsed + interval + slowDownExtra interval r)).trace,
         (pollLoop interval rest (elapsed + interval + slowDownExtra interval r)).elapsed⟩) := by
  have he : ¬ pollTimeout < elapsed := Nat.not_lt.mpr h
  constructor
  · intro out hout
    refine ⟨?_, ?_, pollLoop_terminal_eq _ _ _ _ _ he hout, ?_⟩
    · intro hr
      subst hr
      simp [terminalOutcome] at hout
    · intro hr
      subst hr
      simp [terminalOutcome] at hout
    · rw [pollLoop_terminal_eq _ _ _ _ _ he hout, pollLoop_terminal_eq _ _ _ _ _ he hout]
  · intro hnone
    rcases r with token | e | e | e
    · simp [terminalOutcome] at hnone
    · rcases e with _ | _ | _ | _ | d
      · refine ⟨Or.inl rfl, ?_⟩
        rw [pollLoop_pending_eq _ _ _ he]
        simp [slowDownExtra]
      · refine ⟨Or.inr rfl, ?_⟩
        rw [pollLoop_slowdown_eq _ _ _ he]
        simp [slowDownExtra]
      · simp [terminalOutcome] at hnone
      · simp [terminalOutcome] at hnone
      · simp [terminalOutcome] at hnone
    · simp [terminalOutcome] at hnone
    · simp [terminalOutcome] at hnone

/-- C2: The polling loop sets a wall-clock deadline of 15 minutes (900
seconds) at loop start. Whenever elapsed time exceeds this deadline and no
terminal response has yet occurred, the call terminates at the next iteration
boundary with the AuthFailed timeout error, regardless of what the server
would have answered next: the whole remaining script is ignored, and in
particular a server answering AuthorizationPending forever forces the timeout
error once enough sleep time accumulates. -/
theorem poll_for_token_timeout_after_fifteen_minutes
    (interval elapsed n : Nat) (script : List TokenPollResponse)
    (h1 : pollTimeout < elapsed) (h2 : pollTimeout < n * interval) :
    pollTimeout = 15 * 60 ∧
    pollLoop interval script elapsed =
      ⟨.err (.DeviceCodeAuthFailed timeoutMessage), [], elapsed⟩ ∧
    (poll_for_token interval
        (List.replicate n (.ServerResponse .AuthorizationPending))).outcome
      = .err (.DeviceCodeAuthFailed timeoutMessage) := by
  refine ⟨rfl, pollLoop_timeout_eq _ _ _ h1, ?_⟩
  exact pollLoop_replicate_pending_timeout interval n 0 (by simpa using h2)

/-- C3: If the token endpoint answers AuthorizationPending on each of the
first N poll attempts and success on the next one, all within the 15-minute
deadline, the polling loop performs exactly N+1 poll attempts and returns the
access token of the final attempt. -/
theorem poll_for_token_pending_n_then_success
    (interval n : Nat) (token : String) (h : n * interval ≤ pollTimeout) :
    (poll_for_token interval
        (List.replicate n (.ServerResponse .AuthorizationPending) ++ [.Ok token])).outcome
      = .ok token ∧
    (poll_for_token interval
        (List.replicate n (.ServerResponse .AuthorizationPending) ++ [.Ok token])).trace.length
      = n + 1 := by
  have hskip := pollLoop_replicate_pending_skip interval n 0 [.Ok token] (by simpa using h)
  have hterm := pollLoop_terminal_eq interval (.Ok token) [] (0 + n * interval) (.ok token)
    (by simpa using Nat.not_lt.mpr h) rfl
  unfold poll_for_token
  constructor
  · rw [hskip.1, hterm]
  · rw [hskip.2, hterm]
    rfl

/-- C4: When a poll attempt answers SlowDown, the loop sleeps one additional
interval beyond the normal per-iteration wait before the next attempt: the
SlowDown response happens at logical time elapsed + interval, the next attempt
at (elapsed + interval) + 2 * interval, so exactly two intervals pass between
them, and the loop continues with the same unchanged interval value for all
subsequent iterations. -/
theorem pollLoop_slowdown_waits_two_intervals
    (interval : Nat) (r : TokenPollResponse) (rest : List TokenPollResponse) (elapsed : Nat)
    (h : elapsed + 2 * interval ≤ pollTimeout) :
    pollLoop interval (.ServerResponse .SlowDown :: r :: rest) elapsed =
      ⟨(pollLoop interval (r :: rest) (elapsed + 2 * interval)).outcome,
       (elapsed + interval) :: (pollLoop interval (r :: rest) (elapsed + 2 * interval)).trace,
       (pollLoop interval (r :: rest) (elapsed + 2 * interval)).elapsed⟩ ∧
    (pollLoop interval (.ServerResponse .SlowDown :: r :: rest) elapsed).trace.head?
      = some (elapsed + interval) ∧
    (pollLoop interval (.ServerResponse .SlowDown :: r :: rest) elapsed).trace.tail.head?
      = some ((elapsed + interval) + 2 * interval) := by
  have he : ¬ pollTimeout < elapsed := Nat.not_lt.mpr (le_trans (Nat.le_add_right _ _) h)
  have harr : elapsed + interval + interval = elapsed + 2 * interval := by ring
  have hmain : pollLoop interval (.ServerResponse .SlowDown :: r :: rest) elapsed =
      ⟨(pollLoop interval (r :: rest) (elapsed + 2 * interval)).outcome,
       (elapsed + interval) :: (pollLoop interval (r :: rest) (elapsed + 2 * interval)).trace,
       (pollLoop interval (r :: rest) (elapsed + 2 * interval)).elapsed⟩ := by
    rw [pollLoop_slowdown_eq _ _ _ he, harr]
  have hhead := pollLoop_trace_head interval r rest (elapsed + 2 * interval) (Nat.not_lt.mpr h)
  refine ⟨hmain, ?_, ?_⟩
  · rw [hmain]
    rfl
  · rw [hmain]
    dsimp only
    rw [List.tail_cons, hhead]
    congr 1
    ring

/-- C5: ManualTokenAuth::new fails with InvalidBearerToken exactly when the
trimmed token is empty (covering the empty string and whitespace-only
strings) or the token length (UTF-8 bytes, matching Rust str::len) is below
20; every other input succeeds with the token stored unchanged. -/
theorem manual_token_new_invalid_iff (token : String) :
    ((∃ msg, ManualTokenAuth.new token = .error (.InvalidBearerToken msg)) ↔
      ((rustTrim token).isEmpty = true ∨ token.utf8ByteSize < 20)) ∧
    (¬ ((rustTrim token).isEmpty = true ∨ token.utf8ByteSize < 20) →
      ManualTokenAuth.new token = .ok ⟨token⟩) := by
  unfold ManualTokenAuth.new
  by_cases h1 : (rustTrim token).isEmpty
  · simp [h1]
  · by_cases h2 : token.utf8ByteSize < 20
    · simp [h1, h2]
    · simp [h1, h2]

/-- Witness for C5 at a 21-character token: construction succeeds. -/
theorem manual_token_new_invalid_iff_witness :
    ManualTokenAuth.new "abcdefghijklmnopqrstu" = .ok ⟨"abcdefghijklmnopqrstu"⟩ :=
  (manual_token_new_invalid_iff "abcdefghijklmnopqrstu").2 (by decide)

/-- C6: For every successfully constructed ManualTokenAuth, the stored token
is exactly the input string, and get_credentials returns it unmodified as a
bearer-token credential; get_credentials is a pure function, so repeated
calls return the same result. -/
theorem manual_get_credentials_returns_stored_token (token : String) (a : ManualTokenAuth)
    (h : ManualTokenAuth.new token = .ok a) :
    a.token = token ∧
    ManualTokenAuth.get_credentials a = .ok (.BearerToken token) := by
  unfold ManualTokenAuth.new at h
  split_ifs at h
  have h2 : (⟨token⟩ : ManualTokenAuth) = a := by injection h
  subst h2
  exact ⟨rfl, rfl⟩

/-- Witness for C6 at a 21-character token. -/
theorem manual_get_credentials_returns_stored_token_witness :
    (⟨"abcdefghijklmnopqrstu"⟩ : ManualTokenAuth).token = "abcdefghijklmnopqrstu" ∧
    ManualTokenAuth.get_credentials ⟨"abcdefghijklmnopqrstu"⟩
      = .ok (.BearerToken "abcdefghijklmnopqrstu") :=
  manual_get_credentials_returns_stored_token "abcdefghijklmnopqrstu"
    ⟨"abcdefghijklmnopqrstu"⟩ (by rfl)

/-- C7: Constructing a DeviceCodeAuth with no explicit client id stores the
well-known default client id 04b07795-8ddb-461a-bbee-02f9e1bf7b46 verbatim;
constructing it with an explicit client id stores exactly that id. -/
theorem device_code_new_default_or_explicit_client_id
    (tenant : String) (cloud : Cloud) (cid : String) :
    (∃ a, DeviceCodeAuth.new tenant none cloud = .ok a ∧
       a.client_id = AZURE_CLI_CLIENT_ID ∧
       a.client_id = "04b07795-8ddb-461a-bbee-02f9e1bf7b46") ∧
    (∃ a, DeviceCodeAuth.new tenant (some cid) cloud = .ok a ∧ a.client_id = cid) := by
  cases cloud <;> exact ⟨⟨_, rfl, rfl, rfl⟩, ⟨_, rfl, rfl⟩⟩

/-- C8: On each acquisition attempt, fetch_token derives exactly the three
endpoint URLs base/tenant/oauth2/v2.0/devicecode, .../token and
.../authorize; if a derived URL is rejected by the URL parser, the attempt
fails with DeviceCodeAuthFailed carrying a descriptive cause naming the URL
that failed, and this validation happens at acquisition time only: the
constructor succeeds for every input without checking any URL. -/
theorem fetch_token_url_derivation (urlParse : String → Except String Unit)
    (a : DeviceCodeAuth) (e : String) :
    ((∃ u1, urlParse a.device_auth_url_string = .ok u1) →
     (∃ u2, urlParse a.token_url_string = .ok u2) →
     (∃ u3, urlParse a.auth_url_string = .ok u3) →
      DeviceCodeAuth.fetch_token_urls urlParse a =
        .ok (a.cloud.login_endpoint ++ "/" ++ a.tenant_id ++ "/oauth2/v2.0/devicecode",
             a.cloud.login_endpoint ++ "/" ++ a.tenant_id ++ "/oauth2/v2.0/token",
             a.cloud.login_endpoint ++ "/" ++ a.tenant_id ++ "/oauth2/v2.0/authorize")) ∧
    (urlParse a.device_auth_url_string = .error e →
      DeviceCodeAuth.fetch_token_urls urlParse a =
        .error (.DeviceCodeAuthFailed ("Invalid device auth URL: " ++ e))) ∧
    ((∃ u1, urlParse a.device_auth_url_string = .ok u1) →
      urlParse a.token_url_string = .error e →
      DeviceCodeAuth.fetch_token_urls urlParse a =
        .error (.DeviceCodeAuthFailed ("Invalid token URL: " ++ e))) ∧
    ((∃ u1, urlParse a.device_auth_url_string = .ok u1) →
      (∃ u2, urlParse a.token_url_string = .ok u2) →
      urlParse a.auth_url_string = .error e →
      DeviceCodeAuth.fetch_token_urls urlParse a =
        .error (.DeviceCodeAuthFailed ("Invalid auth URL: " ++ e))) ∧
    (∀ (tenant : String) (cid : Option String) (cloud : Cloud),
      ∃ b, DeviceCodeAuth.new tenant cid cloud = .ok b) := by
  refine ⟨?_, ?_, ?_, ?_, ?_⟩
  · rintro ⟨u1, h1⟩ ⟨u2, h2⟩ ⟨u3, h3⟩
    unfold DeviceCodeAuth.fetch_token_urls
    rw [h1, h2, h3]
    rfl
  · intro h1
    unfold DeviceCodeAuth.fetch_token_urls
    rw [h1]
  · rintro ⟨u1, h1⟩ h2
    unfold DeviceCodeAuth.fetch_token_urls
    rw [h1, h2]
  · rintro ⟨u1, h1⟩ ⟨u2, h2⟩ h3
    unfold DeviceCodeAuth.fetch_token_urls
    rw [h1, h2, h3]
  · intro tenant cid cloud
    cases cloud <;> exact ⟨_, rfl⟩

/-- Witness for C8 with a parser accepting every URL and a concrete provider. -/
theorem fetch_token_url_derivation_witness :
    DeviceCodeAuth.fetch_token_urls (fun _ => .ok ()) ⟨"tenant", "cid", "scope", .Global⟩ =
      .ok ("https://login.microsoftonline.com/tenant/oauth2/v2.0/devicecode",
           "https://login.microsoftonline.com/tenant/oauth2/v2.0/token",
           "https://login.microsoftonline.com/tenant/oauth2/v2.0/authorize") := by
  exact (fetch_token_url_derivation (fun _ => .ok ())
    ⟨"tenant", "cid", "scope", .Global⟩ "x").1 ⟨(), rfl⟩ ⟨(), rfl⟩ ⟨(), rfl⟩

/-- C9: The minimum-length check of ManualTokenAuth::new is applied to the
untrimmed input: any string whose raw UTF-8 length is at least 20 and whose
trimmed form is non-empty is accepted, in particular a 20-character string
made mostly of whitespace around fewer than 20 non-whitespace characters. -/
theorem manual_token_length_check_is_untrimmed (token : String)
    (h1 : (rustTrim token).isEmpty = false) (h2 : 20 ≤ token.utf8ByteSize) :
    ManualTokenAuth.new token = .ok ⟨token⟩ := by
  have h2n : ¬ token.utf8ByteSize < 20 := Nat.not_lt.mpr h2
  unfold ManualTokenAuth.new
  simp [h1, h2n]

/-- Witness for C9: 20 characters, of which only the 5 characters abcde are
non-whitespace, pass validation. -/
theorem manual_token_length_check_is_untrimmed_witness :
    ManualTokenAuth.new "       abcde        " = .ok ⟨"       abcde        "⟩ :=
  manual_token_length_check_is_untrimmed "       abcde        " (by decide) (by decide)

/-- C10: DeviceCodeAuth::new returns success for every input — any tenant id
string, any optional client id, and either cloud variant — because no
validation is performed at construction; its error case is unreachable. -/
theorem device_code_new_never_fails (tenant : String) (cid : Option String) (cloud : Cloud) :
    ∃ a, DeviceCodeAuth.new tenant cid cloud = .ok a := by
  cases cloud <;> exact ⟨_, rfl⟩

/-- Witness for C1: an ExpiredToken response terminates the loop at once with
the expiry error; the scripted success after it is never polled. -/
theorem pollLoop_only_pending_and_slowdown_continue_witness :
    pollLoop 5 [.ServerResponse .ExpiredToken, .Ok "tok"] 0 =
      ⟨.err (.DeviceCodeAuthFailed "Device code expired. Please try again."), [5], 5⟩ := by
  exact ((pollLoop_only_pending_and_slowdown_continue 5 (.ServerResponse .ExpiredToken)
    [.Ok "tok"] 0 (by decide)).1
    (.err (.DeviceCodeAuthFailed "Device code expired. Please try again.")) rfl).2.2.1

/-- Witness for C2 at interval 901 seconds: one pending answer then timeout. -/
theorem poll_for_token_timeout_after_fifteen_minutes_witness :
    pollTimeout = 15 * 60 ∧
    pollLoop 901 [.ServerResponse .AuthorizationPending] 901 =
      ⟨.err (.DeviceCodeAuthFailed timeoutMessage), [], 901⟩ ∧
    (poll_for_token 901
        (List.replicate 1 (.ServerResponse .AuthorizationPending))).outcome
      = .err (.DeviceCodeAuthFailed timeoutMessage) :=
  poll_for_token_timeout_after_fifteen_minutes 901 901 1
    [.ServerResponse .AuthorizationPending] (by decide) (by decide)

/-- Witness for C3 at N = 2 and interval 5 seconds. -/
theorem poll_for_token_pending_n_then_success_witness :
    (poll_for_token 5
        (List.replicate 2 (.ServerResponse .AuthorizationPending) ++ [.Ok "tok"])).outcome
      = .ok "tok" ∧
    (poll_for_token 5
        (List.replicate 2 (.ServerResponse .AuthorizationPending) ++ [.Ok "tok"])).trace.length
      = 2 + 1 :=
  poll_for_token_pending_n_then_success 5 2 "tok" (by decide)

/-- Witness for C4 at interval 5 seconds: attempts at times 5 and 15. -/
theorem pollLoop_slowdown_waits_two_intervals_witness :
    pollLoop 5 [.ServerResponse .SlowDown, .ServerResponse .AuthorizationPending] 0 =
      ⟨(pollLoop 5 [.ServerResponse .AuthorizationPending] 10).outcome,
       5 :: (pollLoop 5 [.ServerResponse .AuthorizationPending] 10).trace,
       (pollLoop 5 [.ServerResponse .AuthorizationPending] 10).elapsed⟩ ∧
    (pollLoop 5 [.ServerResponse .SlowDown,
        .ServerResponse .AuthorizationPending] 0).trace.head? = some 5 ∧
    (pollLoop 5 [.ServerResponse .SlowDown,
        .ServerResponse .AuthorizationPending] 0).trace.tail.head? = some 15 := by
  exact pollLoop_slowdown_waits_two_intervals 5 (.ServerResponse .AuthorizationPending) [] 0
    (by decide)
